import Mathlib

/-!
Verification of the DIDComm v2 pack/unpack core (didcomm-rust).

The unpack orchestrator (`Message::unpack` in `src/message/unpack/mod.rs`),
its option and metadata types, and the FFI pack wrappers are translated
directly from the source.  The JOSE peel engines (`_try_unpack_anoncrypt`,
`_try_unpack_authcrypt`, `_try_unapck_sign`), the pack functions, the JSON
codec and `Message::validate` live in repository files that are not part of
the provided sources; those are modelled from the specification, as marked
in their doc comments.  The on-wire JSON/base64 serialization of JOSE
envelopes is abstracted: a packed string is represented by a `Wire` value
describing its parse (plaintext JSON document, JWS, anoncrypt JWE,
authcrypt JWE, or an invalid JOSE document).
-/

/-- Error kinds of the library (`ErrorKind` in `src/error.rs`, listed in
spec section 7). -/
inductive DErrorKind where
  | didNotResolved
  | didUrlNotFound
  | secretNotFound
  | malformed
  | unsupported
  | illegalArgument
  | invalidState
  | ioError
deriving DecidableEq, Repr

/-- An error: a tagged kind plus a human message (spec section 7:
"surfaced as a tagged kind + human message"). -/
structure DError where
  kind : DErrorKind
  msg : String
deriving DecidableEq, Repr

/-- Signature algorithms (`SignAlg`): EdDSA, ES256, ES256K. -/
inductive SignAlg where
  | edDSA
  | es256
  | es256K
deriving DecidableEq, Repr

/-- Authenticated-encryption algorithms (`AuthCryptAlg`). -/
inductive AuthCryptAlg where
  | a256cbcHs512Ecdh1puA256kw
deriving DecidableEq, Repr

/-- Anonymous-encryption algorithms (`AnonCryptAlg`). -/
inductive AnonCryptAlg where
  | a256cbcHs512EcdhEsA256kw
  | xc20pEcdhEsA256kw
  | a256gcmEcdhEsA256kw
deriving DecidableEq, Repr

/-- Recognized key curves (spec section 4.1). -/
inductive Curve where
  | ed25519
  | x25519
  | p256
  | p384
  | p521
  | k256
deriving DecidableEq, Repr

/-- A JSON value.  Numbers are restricted to integers, which suffices for
the message fields used by the library (`created_time`, `expires_time`,
`byte_count`, `lastmod_time` are integral timestamps/counts). -/
inductive Json where
  | null
  | bool (b : Bool)
  | num (n : Int)
  | str (s : String)
  | arr (elems : List Json)
  | obj (fields : List (String × Json))

/-- The required value of the `typ` header of a plaintext message. -/
def plainTyp : String := "application/didcomm-plain+json"

/-- Attachment data: exactly one of three variants, each with an optional
inner JWS (spec section 3). -/
inductive AttachmentData where
  | base64 (value : String) (jws : Option String)
  | json (value : Json) (jws : Option String)
  | links (links : List String) (hash : String) (jws : Option String)

/-- A message attachment (spec section 3). -/
structure Attachment where
  id : String
  data : AttachmentData
  description : Option String
  filename : Option String
  media_type : Option String
  format : Option String
  lastmod_time : Option Nat
  byte_count : Option Nat

/-- The plaintext message (spec section 3).  Field `type_` carries the
JSON key "type" and `from_` the JSON key "from" (both are reserved words).
Custom headers are not modelled; no claim mentions them. -/
structure Message where
  id : String
  typ : String
  type_ : String
  body : Json
  from_ : Option String
  to_ : Option (List String)
  thid : Option String
  pthid : Option String
  created_time : Option Nat
  expires_time : Option Nat
  from_prior : Option String
  attachments : Option (List Attachment)

/-- Modelled from the spec: JSON encoding of an optional string field.
The real serde codec omits absent fields; this model writes `null`, which
the decoder below treats identically, so round-trips agree. -/
def optStrJson : Option String → Json
  | none => .null
  | some s => .str s

/-- Modelled from the spec: decoding of an optional string field. -/
def jsonOptStr : Json → Option (Option String)
  | .null => some none
  | .str s => some (some s)
  | _ => none

/-- Modelled from the spec: JSON encoding of an optional integer field. -/
def optNatJson : Option Nat → Json
  | none => .null
  | some n => .num (Int.ofNat n)

/-- Modelled from the spec: decoding of an optional integer field. -/
def jsonOptNat : Json → Option (Option Nat)
  | .null => some none
  | .num (Int.ofNat n) => some (some n)
  | _ => none

/-- Modelled from the spec: encoding of a string list. -/
def strListJson (l : List String) : Json :=
  .arr (l.map .str)

/-- Modelled from the spec: decoding of a list of JSON strings. -/
def jsonStrs : List Json → Option (List String)
  | [] => some []
  | .str s :: rest => (jsonStrs rest).map (s :: ·)
  | _ => none

/-- Modelled from the spec: decoding of an optional string list field. -/
def jsonOptStrList : Json → Option (Option (List String))
  | .null => some none
  | .arr xs => (jsonStrs xs).map some
  | _ => none

/-- Modelled from the spec: encoding of an optional string list field. -/
def optStrListJson : Option (List String) → Json
  | none => .null
  | some l => strListJson l

/-- Modelled from the spec: decoding of a string value. -/
def asStr : Json → Option String
  | .str s => some s
  | _ => none

/-- Modelled from the spec: decoding of a string-array value. -/
def asStrList : Json → Option (List String)
  | .arr xs => jsonStrs xs
  | _ => none

/-- Modelled from the spec: JSON encoding of attachment data; the three
variants are distinguished by their keys (`base64` / `json` / `links`). -/
def attachmentDataJson : AttachmentData → Json
  | .base64 v jws => .obj [("base64", .str v), ("jws", optStrJson jws)]
  | .json v jws => .obj [("json", v), ("jws", optStrJson jws)]
  | .links ls h jws =>
      .obj [("links", strListJson ls), ("hash", .str h), ("jws", optStrJson jws)]

/-- Modelled from the spec: decoding of attachment data.  A document
matching none of the three variants (e.g. missing `hash` on a links
attachment, empty or null data) fails to decode, which the unpack
pipeline surfaces as the generic malformed error. -/
def jsonAttachmentData : Json → Option AttachmentData
  | .obj [(k1, d), (k2, j)] =>
      if k1 = "base64" ∧ k2 = "jws" then
        (asStr d).bind fun v => (jsonOptStr j).map (.base64 v)
      else if k1 = "json" ∧ k2 = "jws" then
        (jsonOptStr j).map (.json d)
      else none
  | .obj [(k1, ls), (k2, h), (k3, j)] =>
      if k1 = "links" ∧ k2 = "hash" ∧ k3 = "jws" then
        (asStrList ls).bind fun l =>
        (asStr h).bind fun h2 =>
        (jsonOptStr j).map (.links l h2)
      else none
  | _ => none

/-- Modelled from the spec: JSON encoding of an attachment. -/
def attachmentJson (a : Attachment) : Json :=
  .obj
    [ ("id", .str a.id),
      ("data", attachmentDataJson a.data),
      ("description", optStrJson a.description),
      ("filename", optStrJson a.filename),
      ("media_type", optStrJson a.media_type),
      ("format", optStrJson a.format),
      ("lastmod_time", optNatJson a.lastmod_time),
      ("byte_count", optNatJson a.byte_count) ]

/-- Modelled from the spec: decoding of an attachment; an attachment
without an `id` or without valid data fails to decode. -/
def jsonAttachment : Json → Option Attachment
  | .obj [(k1, idJ), (k2, dJ), (k3, deJ), (k4, fJ), (k5, mtJ), (k6, foJ),
      (k7, ltJ), (k8, bcJ)] =>
      if k1 = "id" ∧ k2 = "data" ∧ k3 = "description" ∧ k4 = "filename" ∧
          k5 = "media_type" ∧ k6 = "format" ∧ k7 = "lastmod_time" ∧
          k8 = "byte_count" then
        (asStr idJ).bind fun i =>
        (jsonAttachmentData dJ).bind fun d2 =>
        (jsonOptStr deJ).bind fun de2 =>
        (jsonOptStr fJ).bind fun f2 =>
        (jsonOptStr mtJ).bind fun mt2 =>
        (jsonOptStr foJ).bind fun fo2 =>
        (jsonOptNat ltJ).bind fun lt2 =>
        (jsonOptNat bcJ).map fun bc2 =>
          ⟨i, d2, de2, f2, mt2, fo2, lt2, bc2⟩
      else none
  | _ => none

/-- Modelled from the spec: decoding of an attachment list. -/
def jsonAttachmentList : List Json → Option (List Attachment)
  | [] => some []
  | j :: rest =>
      (jsonAttachment j).bind fun a => (jsonAttachmentList rest).map (a :: ·)

/-- Modelled from the spec: decoding of the optional attachments field. -/
def jsonOptAttachments : Json → Option (Option (List Attachment))
  | .null => some none
  | .arr xs => (jsonAttachmentList xs).map some
  | _ => none

/-- Modelled from the spec: encoding of the optional attachments field. -/
def optAttachmentsJson : Option (List Attachment) → Json
  | none => .null
  | some l => .arr (l.map attachmentJson)

/-- Modelled from the spec: serialization of a plaintext message to its
JSON document (the body of `pack_plaintext`, whose source file is not
among the provided sources). -/
def Message.toJson (m : Message) : Json :=
  .obj
    [ ("id", .str m.id),
      ("typ", .str m.typ),
      ("type", .str m.type_),
      ("body", m.body),
      ("from", optStrJson m.from_),
      ("to", optStrListJson m.to_),
      ("thid", optStrJson m.thid),
      ("pthid", optStrJson m.pthid),
      ("created_time", optNatJson m.created_time),
      ("expires_time", optNatJson m.expires_time),
      ("from_prior", optStrJson m.from_prior),
      ("attachments", optAttachmentsJson m.attachments) ]

/-- Modelled from the spec: parse of a plaintext message from a JSON
document (`Message::from_str`, whose source file is not among the provided
sources).  The required fields `id`, `typ`, `type`, `body` must be
present; a document of any other shape fails to parse. -/
def Message.fromJson : Json → Option Message
  | .obj [(k1, idJ), (k2, tyJ), (k3, tJ), (k4, bJ), (k5, frJ), (k6, toJ),
      (k7, thJ), (k8, ptJ), (k9, ctJ), (k10, etJ), (k11, fpJ), (k12, attJ)] =>
      if k1 = "id" ∧ k2 = "typ" ∧ k3 = "type" ∧ k4 = "body" ∧ k5 = "from" ∧
          k6 = "to" ∧ k7 = "thid" ∧ k8 = "pthid" ∧ k9 = "created_time" ∧
          k10 = "expires_time" ∧ k11 = "from_prior" ∧ k12 = "attachments" then
        (asStr idJ).bind fun i =>
        (asStr tyJ).bind fun ty =>
        (asStr tJ).bind fun t =>
        (jsonOptStr frJ).bind fun fr2 =>
        (jsonOptStrList toJ).bind fun to2 =>
        (jsonOptStr thJ).bind fun th2 =>
        (jsonOptStr ptJ).bind fun pt2 =>
        (jsonOptNat ctJ).bind fun ct2 =>
        (jsonOptNat etJ).bind fun et2 =>
        (jsonOptStr fpJ).bind fun fp2 =>
        (jsonOptAttachments attJ).map fun att2 =>
          ⟨i, ty, t, bJ, fr2, to2, th2, pt2, ct2, et2, fp2, att2⟩
      else none
  | _ => none

theorem jsonOptStr_optStrJson (o : Option String) :
    jsonOptStr (optStrJson o) = some o := by
  cases o <;> rfl

theorem jsonOptNat_optNatJson (o : Option Nat) :
    jsonOptNat (optNatJson o) = some o := by
  cases o <;> rfl

theorem jsonStrs_map (l : List String) : jsonStrs (l.map .str) = some l := by
  induction l with
  | nil => rfl
  | cons s rest ih => simp [jsonStrs, ih]

theorem jsonOptStrList_optStrListJson (o : Option (List String)) :
    jsonOptStrList (optStrListJson o) = some o := by
  cases o with
  | none => rfl
  | some l => simp [optStrListJson, strListJson, jsonOptStrList, jsonStrs_map]

theorem jsonAttachmentData_attachmentDataJson (d : AttachmentData) :
    jsonAttachmentData (attachmentDataJson d) = some d := by
  cases d with
  | base64 v jws =>
      simp [attachmentDataJson, jsonAttachmentData, jsonOptStr_optStrJson, asStr]
  | json v jws =>
      simp [attachmentDataJson, jsonAttachmentData, jsonOptStr_optStrJson]
  | links ls h jws =>
      simp [attachmentDataJson, jsonAttachmentData, strListJson, jsonStrs_map,
        jsonOptStr_optStrJson, asStr, asStrList]

theorem jsonAttachment_attachmentJson (a : Attachment) :
    jsonAttachment (attachmentJson a) = some a := by
  simp [attachmentJson, jsonAttachment, asStr,
    jsonAttachmentData_attachmentDataJson, jsonOptStr_optStrJson,
    jsonOptNat_optNatJson]

theorem jsonAttachmentList_map (l : List Attachment) :
    jsonAttachmentList (l.map attachmentJson) = some l := by
  induction l with
  | nil => rfl
  | cons a rest ih =>
      simp [jsonAttachmentList, jsonAttachment_attachmentJson, ih]

theorem jsonOptAttachments_optAttachmentsJson (o : Option (List Attachment)) :
    jsonOptAttachments (optAttachmentsJson o) = some o := by
  cases o with
  | none => rfl
  | some l => simp [optAttachmentsJson, jsonOptAttachments, jsonAttachmentList_map]

/-- The plaintext JSON codec round-trips: parsing a serialized message
recovers the message. -/
theorem fromJson_toJson (m : Message) : Message.fromJson m.toJson = some m := by
  simp [Message.toJson, Message.fromJson, asStr,
    jsonOptStr_optStrJson, jsonOptNat_optNatJson, jsonOptStrList_optStrListJson,
    jsonOptAttachments_optAttachmentsJson]

/-- A stored secret: key id plus its curve (spec section 6, `Secret`). -/
structure Secret where
  kid : String
  curve : Curve

/-- The secrets resolver, modelled as the list of secrets the process
holds (spec section 6, `SecretsResolver`). -/
abbrev SecretsResolver : Type := List Secret

/-- Look up a secret by key id (`get_secret`). -/
def findSecret (sr : SecretsResolver) (kid : String) : Option Secret :=
  List.find? (fun s => s.kid == kid) sr

/-- The DID resolver interface (spec section 6): resolve a DID or DID URL
to its key-agreement key ids, and test whether a DID URL resolves to a
verification method. -/
structure DIDResolver where
  keyAgreementKids : String → List String
  knowsKid : String → Bool

/-- A field of a JOSE envelope that a corruption can target (spec
section 8, invariant 5). -/
inductive CorruptSpot where
  | protectedField
  | ivField
  | ciphertextField
  | tagField
  | signatureField
deriving DecidableEq, Repr

/-- The parse of a packed string (the JOSE layer structure of the wire).
The base64/JSON surface syntax is abstracted away; a JWE that fails
base64 decoding or integrity checking of one of its fields is represented
by its `corrupt` component, and a JOSE document missing a required
top-level field (which parses as none of JWE, JWS, plaintext) by
`invalidJose`. -/
inductive Wire where
  | plaintext (doc : Json)
  | jws (payload : Wire) (kid : String) (alg : SignAlg) (sigValid : Bool)
  | jweAnon (payload : Wire) (kids : List String) (alg : AnonCryptAlg)
      (corrupt : Option CorruptSpot)
  | jweAuth (payload : Wire) (skid : String) (apu : Option String)
      (kids : List String) (alg : AuthCryptAlg) (corrupt : Option CorruptSpot)
  | invalidJose

/-- Unpack options (`UnpackOptions` in `src/message/unpack/mod.rs`). -/
structure UnpackOptions where
  expect_decrypt_by_all_keys : Bool
  unwrap_re_wrapping_forward : Bool

/-- The defaults of `UnpackOptions` (both false, per the source). -/
def UnpackOptions.default : UnpackOptions :=
  { expect_decrypt_by_all_keys := false, unwrap_re_wrapping_forward := false }

/-- Unpack metadata (`UnpackMetadata` in `src/message/unpack/mod.rs`).
`signed_message` holds the wire value of the JWS that was peeled; the
source stores its string form. -/
structure UnpackMetadata where
  encrypted : Bool
  authenticated : Bool
  non_repudiation : Bool
  anonymous_sender : Bool
  re_wrapped_in_forward : Bool
  encrypted_from_kid : Option String
  encrypted_to_kids : Option (List String)
  sign_from : Option String
  enc_alg_auth : Option AuthCryptAlg
  enc_alg_anon : Option AnonCryptAlg
  sign_alg : Option SignAlg
  signed_message : Option Wire

/-- The all-false, all-absent metadata the orchestrator starts from
(`src/message/unpack/mod.rs` lines 61-74). -/
def initialMetadata : UnpackMetadata :=
  { encrypted := false
    authenticated := false
    non_repudiation := false
    anonymous_sender := false
    re_wrapped_in_forward := false
    encrypted_from_kid := none
    encrypted_to_kids := none
    sign_from := none
    enc_alg_auth := none
    enc_alg_anon := none
    sign_alg := none
    signed_message := none }

/-- The error message a corrupted JWE field produces.  The source error
carries an input-specific suffix after the colon
("Invalid last symbol ..."), which is not modelled. -/
def jweDecodeError : CorruptSpot → String
  | .protectedField => "Unable decode protected header"
  | .ivField => "Unable decode iv"
  | .ciphertextField => "Unable decode ciphertext"
  | .tagField => "Unable decode tag"
  | .signatureField => "Wrong signature"

/-- Modelled from the spec: `_try_unpack_anoncrypt`
(`src/message/unpack/anoncrypt.rs` is not among the provided sources;
behaviour per spec sections 4.4 and 4.8 and the tests in
`src/message/unpack/mod.rs`).  Returns `none` when the outer layer is
not an anoncrypt JWE, otherwise peels it: a corrupted field fails
Malformed, a recipient without any matching secret fails SecretNotFound,
and on success the payload is decrypted and the metadata records the
anonymous encryption. -/
def _try_unpack_anoncrypt (msg : Wire) (secrets_resolver : SecretsResolver)
    (_options : UnpackOptions) (metadata : UnpackMetadata) :
    Except DError (Option Wire × UnpackMetadata) :=
  match msg with
  | .jweAnon payload kids alg corrupt =>
      match corrupt with
      | some c => .error ⟨.malformed, jweDecodeError c⟩
      | none =>
          if kids.all (fun k => (findSecret secrets_resolver k).isNone) then
            .error ⟨.secretNotFound, "No recipient secrets found"⟩
          else
            .ok (some payload,
              { metadata with
                  encrypted := true
                  anonymous_sender := true
                  encrypted_to_kids := some kids
                  enc_alg_anon := some alg })
  | _ => .ok (none, metadata)

/-- Modelled from the spec: `_try_unpack_authcrypt`
(`src/message/unpack/authcrypt.rs` is not among the provided sources;
behaviour per spec sections 4.5 and 4.8 and the tests in
`src/message/unpack/mod.rs`).  Returns `none` when the layer is not an
authcrypt JWE, otherwise peels it: a corrupted field fails Malformed, a
missing or inconsistent `apu` fails Malformed "SKID present, but no apu",
an unresolvable sender kid fails DIDNotResolved, a recipient without any
matching secret fails SecretNotFound; on success the metadata records the
authenticated encryption. -/
def _try_unpack_authcrypt (msg : Wire) (did_resolver : DIDResolver)
    (secrets_resolver : SecretsResolver) (_options : UnpackOptions)
    (metadata : UnpackMetadata) :
    Except DError (Option Wire × UnpackMetadata) :=
  match msg with
  | .jweAuth payload skid apu kids alg corrupt =>
      match corrupt with
      | some c => .error ⟨.malformed, jweDecodeError c⟩
      | none =>
          if apu ≠ some skid then
            .error ⟨.malformed, "SKID present, but no apu"⟩
          else if ¬ did_resolver.knowsKid skid then
            .error ⟨.didNotResolved, "Sender did not found"⟩
          else if kids.all (fun k => (findSecret secrets_resolver k).isNone) then
            .error ⟨.secretNotFound, "No recipient secrets found"⟩
          else
            .ok (some payload,
              { metadata with
                  encrypted := true
                  authenticated := true
                  encrypted_from_kid := some skid
                  encrypted_to_kids := some kids
                  enc_alg_auth := some alg })
  | _ => .ok (none, metadata)

/-- Modelled from the spec: `_try_unapck_sign`
(`src/message/unpack/sign.rs` is not among the provided sources;
behaviour per spec sections 4.6 and 4.8 and the tests in
`src/message/unpack/mod.rs`).  Returns `none` when the layer is not a
JWS, otherwise peels it: an unresolvable signer kid fails DIDUrlNotFound,
a failing signature verification fails Malformed "Wrong signature"; on
success the metadata records the signature and keeps the original JWS in
`signed_message`. -/
def _try_unapck_sign (msg : Wire) (did_resolver : DIDResolver)
    (_options : UnpackOptions) (metadata : UnpackMetadata) :
    Except DError (Option Wire × UnpackMetadata) :=
  match msg with
  | .jws payload kid alg sigValid =>
      if ¬ did_resolver.knowsKid kid then
        .error ⟨.didUrlNotFound, "Signer key id not found"⟩
      else if ¬ sigValid then
        .error ⟨.malformed, "Wrong signature"⟩
      else
        .ok (some payload,
          { metadata with
              non_repudiation := true
              authenticated := true
              sign_from := some kid
              sign_alg := some alg
              signed_message := some msg })
  | _ => .ok (none, metadata)

/-- Modelled from the spec: `Message::from_str` (its source file is not
among the provided sources).  Only a plaintext JSON document that parses
as a message succeeds; a JWS, JWE or invalid JOSE document reaching this
stage fails, which the orchestrator maps to the generic malformed
error. -/
def Message.from_str : Wire → Option Message
  | .plaintext doc => Message.fromJson doc
  | _ => none

/-- Modelled from the spec: `Message::validate` (its source file is not
among the provided sources).  The `typ` header must equal
"application/didcomm-plain+json" (spec section 4.9); the error string is
the one asserted by `unpack_works_malformed_plaintext_msg` in
`src/message/unpack/mod.rs`, with backticks around `typ`.  The remaining
shape constraints (required fields, attachment data variants) are
enforced by the parse itself. -/
def Message.validate (m : Message) : Except DError Message :=
  if m.typ = plainTyp then .ok m
  else .error ⟨.malformed, "`typ` must be \"application/didcomm-plain+json\""⟩

/-- The unpack orchestrator, translated from `Message::unpack` in
`src/message/unpack/mod.rs` lines 48-98: reject
`unwrap_re_wrapping_forward`, then peel anoncrypt, authcrypt and
signature layers in order (each peel optional), then parse and validate
the plaintext, mapping a parse failure to the generic malformed error
(`wrap_err_or_invalid_state`). -/
def Message.unpack (msg : Wire) (did_resolver : DIDResolver)
    (secrets_resolver : SecretsResolver) (options : UnpackOptions) :
    Except DError (Message × UnpackMetadata) :=
  if options.unwrap_re_wrapping_forward then
    .error ⟨.unsupported, "Forward unwrapping is unsupported by this version"⟩
  else
    match _try_unpack_anoncrypt msg secrets_resolver options initialMetadata with
    | .error e => .error e
    | .ok (anoncrypted, metadata) =>
        let msg1 := anoncrypted.getD msg
        match _try_unpack_authcrypt msg1 did_resolver secrets_resolver options
            metadata with
        | .error e => .error e
        | .ok (authcrypted, metadata) =>
            let msg2 := authcrypted.getD msg1
            match _try_unapck_sign msg2 did_resolver options metadata with
            | .error e => .error e
            | .ok (signed, metadata) =>
                let msg3 := signed.getD msg2
                match Message.from_str msg3 with
                | none =>
                    .error ⟨.malformed, "Message is not a valid JWE, JWS or JWM"⟩
                | some m =>
                    match m.validate with
                    | .error e => .error e
                    | .ok m2 => .ok (m2, metadata)

/-- Modelled from the spec: the signature algorithm a signing key's curve
selects (spec section 4.6: Ed25519 gives EdDSA, P-256 gives ES256,
secp256k1 gives ES256K); other curves cannot sign. -/
def signAlgForCurve : Curve → Option SignAlg
  | .ed25519 => some .edDSA
  | .p256 => some .es256
  | .k256 => some .es256K
  | _ => none

/-- Pack-encrypted options (spec section 6, `PackEncryptedOptions`);
`forward_headers` and `messaging_service` are not modelled (forward
wrapping is out of scope in this version). -/
structure PackEncryptedOptions where
  protect_sender : Bool
  forward : Bool
  enc_alg_auth : AuthCryptAlg
  enc_alg_anon : AnonCryptAlg

/-- The defaults of `PackEncryptedOptions` (spec section 6). -/
def PackEncryptedOptions.default : PackEncryptedOptions :=
  { protect_sender := false
    forward := true
    enc_alg_auth := .a256cbcHs512Ecdh1puA256kw
    enc_alg_anon := .xc20pEcdhEsA256kw }

/-- Modelled from the spec: `Message::pack_plaintext` (its source file is
not among the provided sources): serialize the message as a plaintext
JSON document (spec section 6). -/
def Message.pack_plaintext (m : Message) : Wire :=
  .plaintext m.toJson

/-- Modelled from the spec: `Message::pack_signed` (its source file is
not among the provided sources): resolve the signer key id, look up its
secret, infer the signature algorithm from the key's curve and produce a
JWS over the plaintext (spec sections 4.6 and 6).  `sign_by` is taken to
be a key id; resolution of a bare DID to its first authentication method
is not modelled. -/
def Message.pack_signed (m : Message) (sign_by : String)
    (did_resolver : DIDResolver) (secrets_resolver : SecretsResolver) :
    Except DError Wire :=
  if ¬ did_resolver.knowsKid sign_by then
    .error ⟨.didUrlNotFound, "Signer key id not found"⟩
  else
    match findSecret secrets_resolver sign_by with
    | none => .error ⟨.secretNotFound, "No signer secrets found"⟩
    | some s =>
        match signAlgForCurve s.curve with
        | none => .error ⟨.unsupported, "Unsupported signature alg"⟩
        | some alg => .ok (.jws (.plaintext m.toJson) sign_by alg true)

/-- Modelled from the spec: `Message::pack_encrypted` (its source file is
not among the provided sources): optionally sign, then authcrypt when a
sender is given (adding an outer anoncrypt layer when `protect_sender`
is set), else anoncrypt only (spec section 4.7).  `frm` is the optional
sender DID or key id; the sender key id is its first resolved
key-agreement kid. -/
def Message.pack_encrypted (m : Message) (toD : String) (frm : Option String)
    (sign_by : Option String) (did_resolver : DIDResolver)
    (secrets_resolver : SecretsResolver) (options : PackEncryptedOptions) :
    Except DError Wire :=
  let innerE : Except DError Wire :=
    match sign_by with
    | some sb => m.pack_signed sb did_resolver secrets_resolver
    | none => .ok (.plaintext m.toJson)
  match innerE with
  | .error e => .error e
  | .ok inner =>
      let toKids := did_resolver.keyAgreementKids toD
      if toKids.isEmpty then
        .error ⟨.didNotResolved, "Recipient did not found"⟩
      else
        match frm with
        | none => .ok (.jweAnon inner toKids options.enc_alg_anon none)
        | some f =>
            match (did_resolver.keyAgreementKids f).head? with
            | none => .error ⟨.didNotResolved, "Sender did not found"⟩
            | some fromKid =>
                if (findSecret secrets_resolver fromKid).isNone then
                  .error ⟨.secretNotFound, "No sender secrets found"⟩
                else
                  let auth : Wire :=
                    .jweAuth inner fromKid (some fromKid) toKids
                      options.enc_alg_auth none
                  if options.protect_sender then
                    .ok (.jweAnon auth toKids options.enc_alg_anon none)
                  else
                    .ok auth

/-- The envelope fields of a packed wire that a single-byte corruption
can target (spec section 8, invariant 5): the JWE `protected`, `iv`,
`ciphertext` and `tag` fields, and for a JWS its per-signature
`protected` and `signature` fields. -/
def applicableCorruptions : Wire → List CorruptSpot
  | .jws _ _ _ _ => [.protectedField, .signatureField]
  | .jweAnon _ _ _ _ => [.protectedField, .ivField, .ciphertextField, .tagField]
  | .jweAuth _ _ _ _ _ _ =>
      [.protectedField, .ivField, .ciphertextField, .tagField]
  | _ => []

/-- Modelled from the spec: apply a single-byte corruption to an envelope
field.  For a JWE the corrupted field fails decoding or integrity
checking (spec section 4.3: authenticated encryption); for a JWS the
signature no longer verifies. -/
def corruptWire : Wire → CorruptSpot → Wire
  | .jws payload kid alg _, _ => .jws payload kid alg false
  | .jweAnon payload kids alg _, c => .jweAnon payload kids alg (some c)
  | .jweAuth payload skid apu kids alg _, c =>
      .jweAuth payload skid apu kids alg (some c)
  | w, _ => w

/-- The status code the FFI wrappers return synchronously
(`ErrorCode` in the FFI crate). -/
inductive ErrorCode where
  | success
  | error
deriving DecidableEq, Repr

/-- The callback invocation a spawned FFI pack future eventually
performs: `cb.success(result)` or `cb.error(kind, msg)`
(`OnPack*Result` in `src/ffi/src/message`). -/
inductive PackCallbackCall where
  | onSuccess (result : Wire)
  | onError (kind : DErrorKind) (msg : String)

/-- The FFI `pack_plaintext` wrapper
(`src/ffi/src/message/pack_plaintext.rs`): spawn the core call and return
`ErrorCode::Success`; the pair's second component is the callback
invocation the spawned future performs once the core call completes. -/
def ffi_pack_plaintext (msg : Message) : ErrorCode × PackCallbackCall :=
  (.success, .onSuccess msg.pack_plaintext)

/-- The FFI `pack_signed` wrapper
(`src/ffi/src/message/pack_signed.rs`): spawn the core call and return
`ErrorCode::Success`; the second component is the eventual callback
invocation, matching on the core result exactly as the spawned closure
does. -/
def ffi_pack_signed (msg : Message) (sign_by : String)
    (did_resolver : DIDResolver) (secrets_resolver : SecretsResolver) :
    ErrorCode × PackCallbackCall :=
  (.success,
    match msg.pack_signed sign_by did_resolver secrets_resolver with
    | .ok result => .onSuccess result
    | .error e => .onError e.kind e.msg)

/-- The FFI `pack_encrypted` wrapper
(`src/ffi/src/message/pack_encrypted.rs`): spawn the core call and return
`ErrorCode::Success`; the second component is the eventual callback
invocation. -/
def ffi_pack_encrypted (msg : Message) (toD : String) (frm : Option String)
    (sign_by : Option String) (did_resolver : DIDResolver)
    (secrets_resolver : SecretsResolver) (options : PackEncryptedOptions) :
    ErrorCode × PackCallbackCall :=
  (.success,
    match msg.pack_encrypted toD frm sign_by did_resolver secrets_resolver
        options with
    | .ok result => .onSuccess result
    | .error e => .onError e.kind e.msg)

/-- A concrete message in the shape of the spec's end-to-end seed 1. -/
def exampleMessage : Message :=
  { id := "example-1"
    typ := plainTyp
    type_ := "example/v1"
    body := .str "example-body"
    from_ := some "did:example:alice"
    to_ := some ["did:example:bob"]
    thid := none
    pthid := none
    created_time := some 1516269022
    expires_time := none
    from_prior := none
    attachments := none }

def bobKid1 : String := "did:example:bob#key-x25519-1"

def bobKid2 : String := "did:example:bob#key-x25519-2"

def aliceSignKid : String := "did:example:alice#key-1"

def aliceAgreemKid : String := "did:example:alice#key-x25519-1"

/-- A concrete DID resolver holding the example Alice and Bob documents. -/
def exampleDIDResolver : DIDResolver :=
  { keyAgreementKids := fun d =>
      if d == "did:example:bob" then [bobKid1, bobKid2]
      else if d == "did:example:alice" then [aliceAgreemKid]
      else if d == bobKid1 then [bobKid1]
      else []
    knowsKid := fun k =>
      k == aliceSignKid || k == aliceAgreemKid || k == bobKid1 || k == bobKid2 }

/-- Alice's secrets (sender side). -/
def aliceSecrets : SecretsResolver :=
  [⟨aliceSignKid, .ed25519⟩, ⟨aliceAgreemKid, .x25519⟩]

/-- Bob's secrets (recipient side). -/
def bobSecrets : SecretsResolver :=
  [⟨bobKid1, .x25519⟩, ⟨bobKid2, .x25519⟩]

/-- C2: with `unwrap_re_wrapping_forward = true`, unpack returns the
Unsupported error "Forward unwrapping is unsupported by this version" on
every input and never succeeds. -/
theorem unpack_forward_unwrap_unsupported (msg : Wire)
    (did_resolver : DIDResolver) (secrets_resolver : SecretsResolver)
    (options : UnpackOptions)
    (h : options.unwrap_re_wrapping_forward = true) :
    Message.unpack msg did_resolver secrets_resolver options =
      .error ⟨.unsupported, "Forward unwrapping is unsupported by this version"⟩ := by
  simp [Message.unpack, h]

theorem unpack_forward_unwrap_unsupported_witness :
    Message.unpack .invalidJose exampleDIDResolver bobSecrets
        { expect_decrypt_by_all_keys := false,
          unwrap_re_wrapping_forward := true } =
      .error ⟨.unsupported, "Forward unwrapping is unsupported by this version"⟩ :=
  unpack_forward_unwrap_unsupported _ _ _ _ rfl

/-- C6: a JOSE document missing a required top-level field, and a
plaintext document whose parse fails, both unpack to the Malformed error
"Message is not a valid JWE, JWS or JWM", hiding which layer rejected
the input. -/
theorem unpack_generic_malformed (did_resolver : DIDResolver)
    (secrets_resolver : SecretsResolver) (options : UnpackOptions) (doc : Json)
    (huo : options.unwrap_re_wrapping_forward = false)
    (hdoc : Message.fromJson doc = none) :
    Message.unpack .invalidJose did_resolver secrets_resolver options =
      .error ⟨.malformed, "Message is not a valid JWE, JWS or JWM"⟩ ∧
    Message.unpack (.plaintext doc) did_resolver secrets_resolver options =
      .error ⟨.malformed, "Message is not a valid JWE, JWS or JWM"⟩ := by
  constructor <;>
    simp [Message.unpack, huo, _try_unpack_anoncrypt, _try_unpack_authcrypt,
      _try_unapck_sign, Message.from_str, hdoc]

theorem unpack_generic_malformed_witness :
    Message.unpack .invalidJose exampleDIDResolver bobSecrets
        UnpackOptions.default =
      .error ⟨.malformed, "Message is not a valid JWE, JWS or JWM"⟩ ∧
    Message.unpack (.plaintext .null) exampleDIDResolver bobSecrets
        UnpackOptions.default =
      .error ⟨.malformed, "Message is not a valid JWE, JWS or JWM"⟩ :=
  unpack_generic_malformed _ _ _ _ rfl rfl

/-- C7: an authcrypt JWE whose protected header carries `skid` but no
`apu` unpacks to the Malformed error "SKID present, but no apu". -/
theorem unpack_skid_no_apu (payload : Wire) (skid : String)
    (kids : List String) (alg : AuthCryptAlg) (did_resolver : DIDResolver)
    (secrets_resolver : SecretsResolver) (options : UnpackOptions)
    (huo : options.unwrap_re_wrapping_forward = false) :
    Message.unpack (.jweAuth payload skid none kids alg none) did_resolver
        secrets_resolver options =
      .error ⟨.malformed, "SKID present, but no apu"⟩ := by
  simp [Message.unpack, huo, _try_unpack_anoncrypt, _try_unpack_authcrypt]

theorem unpack_skid_no_apu_witness :
    Message.unpack
        (.jweAuth (.plaintext exampleMessage.toJson) aliceAgreemKid none
          [bobKid1, bobKid2] .a256cbcHs512Ecdh1puA256kw none)
        exampleDIDResolver bobSecrets UnpackOptions.default =
      .error ⟨.malformed, "SKID present, but no apu"⟩ :=
  unpack_skid_no_apu _ _ _ _ _ _ _ rfl

/-- A plaintext message whose `typ` header is present but wrong. -/
def badTypMessage : Message :=
  { exampleMessage with typ := "application/didcomm-encrypted+json" }

/-- C8 counterexample: unpacking a plaintext message with a wrong `typ`
yields a Malformed error whose message is NOT the claimed
string with apostrophes around typ; the code (test
`unpack_works_malformed_plaintext_msg`) puts backticks around typ. -/
theorem unpack_wrong_typ_counterexample :
    (Message.unpack (.plaintext badTypMessage.toJson) exampleDIDResolver
        bobSecrets UnpackOptions.default =
      .error ⟨.malformed, "`typ` must be \"application/didcomm-plain+json\""⟩) ∧
    ("`typ` must be \"application/didcomm-plain+json\"" ≠
      "'typ' must be \"application/didcomm-plain+json\"") := by
  constructor
  · rfl
  · decide

/-- C8 (amended): a plaintext message whose `typ` is present but not
"application/didcomm-plain+json" unpacks to a Malformed error whose
message puts backticks around typ. -/
theorem unpack_wrong_typ (doc : Json) (m : Message)
    (did_resolver : DIDResolver) (secrets_resolver : SecretsResolver)
    (options : UnpackOptions)
    (huo : options.unwrap_re_wrapping_forward = false)
    (hdoc : Message.fromJson doc = some m)
    (htyp : m.typ ≠ plainTyp) :
    Message.unpack (.plaintext doc) did_resolver secrets_resolver options =
      .error ⟨.malformed, "`typ` must be \"application/didcomm-plain+json\""⟩ := by
  simp [Message.unpack, huo, _try_unpack_anoncrypt, _try_unpack_authcrypt,
    _try_unapck_sign, Message.from_str, hdoc, Message.validate, htyp]

theorem unpack_wrong_typ_witness :
    Message.unpack (.plaintext badTypMessage.toJson) exampleDIDResolver
        bobSecrets UnpackOptions.default =
      .error ⟨.malformed, "`typ` must be \"application/didcomm-plain+json\""⟩ :=
  unpack_wrong_typ badTypMessage.toJson badTypMessage _ _ _ rfl rfl
    (by decide)

/-- C10: the FFI pack wrappers return `ErrorCode::Success` synchronously
and unconditionally; the actual outcome, success or error, is delivered
only through the callback invocation the spawned future performs, which
matches the core call's result exactly. -/
theorem ffi_pack_wrappers_return_success (m : Message) (sign_by toD : String)
    (frm sb : Option String) (did_resolver : DIDResolver)
    (secrets_resolver : SecretsResolver) (options : PackEncryptedOptions) :
    (ffi_pack_plaintext m).1 = .success ∧
    (ffi_pack_signed m sign_by did_resolver secrets_resolver).1 = .success ∧
    (ffi_pack_encrypted m toD frm sb did_resolver secrets_resolver
        options).1 = .success ∧
    (ffi_pack_plaintext m).2 = .onSuccess m.pack_plaintext ∧
    ((∃ r, m.pack_signed sign_by did_resolver secrets_resolver = .ok r ∧
        (ffi_pack_signed m sign_by did_resolver secrets_resolver).2 =
          .onSuccess r) ∨
      (∃ e, m.pack_signed sign_by did_resolver secrets_resolver = .error e ∧
        (ffi_pack_signed m sign_by did_resolver secrets_resolver).2 =
          .onError e.kind e.msg)) ∧
    ((∃ r, m.pack_encrypted toD frm sb did_resolver secrets_resolver
          options = .ok r ∧
        (ffi_pack_encrypted m toD frm sb did_resolver secrets_resolver
          options).2 = .onSuccess r) ∨
      (∃ e, m.pack_encrypted toD frm sb did_resolver secrets_resolver
          options = .error e ∧
        (ffi_pack_encrypted m toD frm sb did_resolver secrets_resolver
          options).2 = .onError e.kind e.msg)) := by
  refine ⟨rfl, rfl, rfl, rfl, ?_, ?_⟩
  · cases h : m.pack_signed sign_by did_resolver secrets_resolver with
    | ok r => exact Or.inl ⟨r, rfl, by simp [ffi_pack_signed, h]⟩
    | error e => exact Or.inr ⟨e, rfl, by simp [ffi_pack_signed, h]⟩
  · cases h : m.pack_encrypted toD frm sb did_resolver secrets_resolver
        options with
    | ok r => exact Or.inl ⟨r, rfl, by simp [ffi_pack_encrypted, h]⟩
    | error e => exact Or.inr ⟨e, rfl, by simp [ffi_pack_encrypted, h]⟩

/-- C4: unpacking a plaintext-packed message returns exactly the message
with metadata whose booleans are all false and whose optional fields are
all absent. -/
theorem unpack_pack_plaintext (m : Message) (did_resolver : DIDResolver)
    (secrets_resolver : SecretsResolver) (options : UnpackOptions)
    (huo : options.unwrap_re_wrapping_forward = false)
    (htyp : m.typ = plainTyp) :
    Message.unpack m.pack_plaintext did_resolver secrets_resolver options =
      .ok (m,
        { encrypted := false
          authenticated := false
          non_repudiation := false
          anonymous_sender := false
          re_wrapped_in_forward := false
          encrypted_from_kid := none
          encrypted_to_kids := none
          sign_from := none
          enc_alg_auth := none
          enc_alg_anon := none
          sign_alg := none
          signed_message := none }) := by
  simp [Message.unpack, huo, Message.pack_plaintext, _try_unpack_anoncrypt,
    _try_unpack_authcrypt, _try_unapck_sign, Message.from_str, fromJson_toJson,
    Message.validate, htyp, initialMetadata]

theorem unpack_pack_plaintext_witness :
    Message.unpack exampleMessage.pack_plaintext exampleDIDResolver bobSecrets
        UnpackOptions.default =
      .ok (exampleMessage,
        { encrypted := false
          authenticated := false
          non_repudiation := false
          anonymous_sender := false
          re_wrapped_in_forward := false
          encrypted_from_kid := none
          encrypted_to_kids := none
          sign_from := none
          enc_alg_auth := none
          enc_alg_anon := none
          sign_alg := none
          signed_message := none }) :=
  unpack_pack_plaintext exampleMessage _ _ _ rfl rfl

/-- C3: signing with key K and unpacking yields the message back with
non_repudiation and authenticated true, sign_from = K's kid, sign_alg
the algorithm K's curve selects (Ed25519 gives EdDSA, P-256 gives ES256,
secp256k1 gives ES256K), and signed_message equal to the packed JWS. -/
theorem unpack_pack_signed (m : Message) (K : Secret) (salg : SignAlg)
    (did_resolver_s did_resolver_r : DIDResolver)
    (secrets_resolver_s secrets_resolver_r : SecretsResolver)
    (options : UnpackOptions)
    (htyp : m.typ = plainTyp)
    (hkS : did_resolver_s.knowsKid K.kid = true)
    (hsec : findSecret secrets_resolver_s K.kid = some K)
    (halg : signAlgForCurve K.curve = some salg)
    (hkR : did_resolver_r.knowsKid K.kid = true)
    (huo : options.unwrap_re_wrapping_forward = false) :
    m.pack_signed K.kid did_resolver_s secrets_resolver_s =
      .ok (.jws (.plaintext m.toJson) K.kid salg true) ∧
    Message.unpack (.jws (.plaintext m.toJson) K.kid salg true) did_resolver_r
        secrets_resolver_r options =
      .ok (m,
        { encrypted := false
          authenticated := true
          non_repudiation := true
          anonymous_sender := false
          re_wrapped_in_forward := false
          encrypted_from_kid := none
          encrypted_to_kids := none
          sign_from := some K.kid
          enc_alg_auth := none
          enc_alg_anon := none
          sign_alg := some salg
          signed_message := some (.jws (.plaintext m.toJson) K.kid salg true) }) ∧
    signAlgForCurve .ed25519 = some .edDSA ∧
    signAlgForCurve .p256 = some .es256 ∧
    signAlgForCurve .k256 = some .es256K := by
  refine ⟨?_, ?_, rfl, rfl, rfl⟩
  · simp [Message.pack_signed, hkS, hsec, halg]
  · simp [Message.unpack, huo, _try_unpack_anoncrypt, _try_unpack_authcrypt,
      _try_unapck_sign, hkR, Message.from_str, fromJson_toJson,
      Message.validate, htyp, initialMetadata]

theorem unpack_pack_signed_witness :
    exampleMessage.pack_signed aliceSignKid exampleDIDResolver aliceSecrets =
      .ok (.jws (.plaintext exampleMessage.toJson) aliceSignKid .edDSA true) ∧
    Message.unpack
        (.jws (.plaintext exampleMessage.toJson) aliceSignKid .edDSA true)
        exampleDIDResolver bobSecrets UnpackOptions.default =
      .ok (exampleMessage,
        { encrypted := false
          authenticated := true
          non_repudiation := true
          anonymous_sender := false
          re_wrapped_in_forward := false
          encrypted_from_kid := none
          encrypted_to_kids := none
          sign_from := some aliceSignKid
          enc_alg_auth := none
          enc_alg_anon := none
          sign_alg := some .edDSA
          signed_message :=
            some (.jws (.plaintext exampleMessage.toJson) aliceSignKid
              .edDSA true) }) ∧
    signAlgForCurve .ed25519 = some .edDSA ∧
    signAlgForCurve .p256 = some .es256 ∧
    signAlgForCurve .k256 = some .es256K :=
  unpack_pack_signed exampleMessage ⟨aliceSignKid, .ed25519⟩ .edDSA
    exampleDIDResolver exampleDIDResolver aliceSecrets bobSecrets
    UnpackOptions.default rfl rfl rfl rfl rfl rfl

/-- A successful validate returns its argument unchanged, so validation
is stable. -/
theorem validate_ok_eq (m0 m2 : Message)
    (h : Message.validate m0 = .ok m2) :
    m2 = m0 ∧ Message.validate m2 = .ok m2 := by
  by_cases ht : m0.typ = plainTyp
  · simp [Message.validate, ht] at h
    subst h
    simp [Message.validate, ht]
  · simp [Message.validate, ht] at h

/-- A successful plaintext-stage parse comes from a plaintext JSON
document. -/
theorem from_str_some (w : Wire) (m0 : Message)
    (h : Message.from_str w = some m0) :
    ∃ doc, Message.fromJson doc = some m0 := by
  cases w <;> simp [Message.from_str] at h
  case plaintext doc => exact ⟨doc, h⟩

/-- C9: every message a successful unpack returns parsed from a JSON
document at the final stage and passes validation; unpack cannot return
a message violating the validated shape. -/
theorem unpack_success_validates (w : Wire) (did_resolver : DIDResolver)
    (secrets_resolver : SecretsResolver) (options : UnpackOptions)
    (m : Message) (md : UnpackMetadata)
    (h : Message.unpack w did_resolver secrets_resolver options = .ok (m, md)) :
    Message.validate m = .ok m ∧ ∃ doc, Message.fromJson doc = some m := by
  unfold Message.unpack at h
  split at h
  · exact absurd h (by simp)
  · split at h
    · exact absurd h (by simp)
    · try dsimp only at h
      split at h
      · exact absurd h (by simp)
      · try dsimp only at h
        split at h
        · exact absurd h (by simp)
        · try dsimp only at h
          split at h
          · exact absurd h (by simp)
          · split at h
            · exact absurd h (by simp)
            · rename_i m0 hparse a3 m2 hval
              rw [Except.ok.injEq, Prod.mk.injEq] at h
              obtain ⟨hm, -⟩ := h
              obtain ⟨heq, hstable⟩ := validate_ok_eq m0 m2 hval
              have hx : ∃ doc, Message.fromJson doc = some m0 :=
                from_str_some _ _ hparse
              rw [← heq, hm] at hx
              rw [hm] at hstable
              exact ⟨hstable, hx⟩

theorem unpack_success_validates_witness :
    Message.validate exampleMessage = .ok exampleMessage ∧
    ∃ doc, Message.fromJson doc = some exampleMessage :=
  unpack_success_validates exampleMessage.pack_plaintext exampleDIDResolver
    bobSecrets UnpackOptions.default exampleMessage initialMetadata rfl

/-- C5: given a packed wire that unpacks successfully, corrupting any of
its envelope fields (JWE protected/iv/ciphertext/tag; JWS
protected/signature) makes unpack fail with a Malformed error and never
succeed. -/
theorem unpack_corruption_malformed (w : Wire) (did_resolver : DIDResolver)
    (secrets_resolver : SecretsResolver) (options : UnpackOptions)
    (res : Message × UnpackMetadata)
    (h : Message.unpack w did_resolver secrets_resolver options = .ok res) :
    ∀ c ∈ applicableCorruptions w,
      ∃ e, Message.unpack (corruptWire w c) did_resolver secrets_resolver
          options = .error e ∧ e.kind = .malformed := by
  intro c hc
  have huo : options.unwrap_re_wrapping_forward = false := by
    cases hu : options.unwrap_re_wrapping_forward
    · rfl
    · simp [Message.unpack, hu] at h
  cases w with
  | plaintext doc => simp [applicableCorruptions] at hc
  | invalidJose => simp [applicableCorruptions] at hc
  | jweAnon payload kids alg corrupt =>
      refine ⟨⟨.malformed, jweDecodeError c⟩, ?_, rfl⟩
      simp [Message.unpack, huo, corruptWire, _try_unpack_anoncrypt]
  | jweAuth payload skid apu kids alg corrupt =>
      refine ⟨⟨.malformed, jweDecodeError c⟩, ?_, rfl⟩
      simp [Message.unpack, huo, corruptWire, _try_unpack_anoncrypt,
        _try_unpack_authcrypt]
  | jws payload kid alg sigValid =>
      cases hk : did_resolver.knowsKid kid
      · simp [Message.unpack, huo, _try_unpack_anoncrypt,
          _try_unpack_authcrypt, _try_unapck_sign, hk] at h
      · refine ⟨⟨.malformed, "Wrong signature"⟩, ?_, rfl⟩
        simp [Message.unpack, huo, corruptWire, _try_unpack_anoncrypt,
          _try_unpack_authcrypt, _try_unapck_sign, hk]

theorem unpack_corruption_malformed_witness :
    ∃ e,
      Message.unpack
          (corruptWire
            (.jweAnon (.plaintext exampleMessage.toJson) [bobKid1, bobKid2]
              .xc20pEcdhEsA256kw none) .tagField)
          exampleDIDResolver bobSecrets UnpackOptions.default =
        .error e ∧ e.kind = .malformed :=
  unpack_corruption_malformed
    (.jweAnon (.plaintext exampleMessage.toJson) [bobKid1, bobKid2]
      .xc20pEcdhEsA256kw none)
    exampleDIDResolver bobSecrets UnpackOptions.default
    (exampleMessage,
      { encrypted := true
        authenticated := false
        non_repudiation := false
        anonymous_sender := true
        re_wrapped_in_forward := false
        encrypted_from_kid := none
        encrypted_to_kids := some [bobKid1, bobKid2]
        sign_from := none
        enc_alg_auth := none
        enc_alg_anon := some .xc20pEcdhEsA256kw
        sign_alg := none
        signed_message := none })
    rfl .tagField (by simp [applicableCorruptions])

/-- C1 counterexample: packing without a sender and with default options
(protect_sender = false) unpacks with anonymous_sender = true, refuting
"anonymous_sender equals options.protect_sender". -/
theorem unpack_pack_encrypted_counterexample :
    Message.pack_encrypted exampleMessage "did:example:bob" none none
        exampleDIDResolver aliceSecrets PackEncryptedOptions.default =
      .ok (.jweAnon (.plaintext exampleMessage.toJson) [bobKid1, bobKid2]
        .xc20pEcdhEsA256kw none) ∧
    PackEncryptedOptions.default.protect_sender = false ∧
    Message.unpack
        (.jweAnon (.plaintext exampleMessage.toJson) [bobKid1, bobKid2]
          .xc20pEcdhEsA256kw none)
        exampleDIDResolver bobSecrets UnpackOptions.default =
      .ok (exampleMessage,
        { encrypted := true
          authenticated := false
          non_repudiation := false
          anonymous_sender := true
          re_wrapped_in_forward := false
          encrypted_from_kid := none
          encrypted_to_kids := some [bobKid1, bobKid2]
          sign_from := none
          enc_alg_auth := none
          enc_alg_anon := some .xc20pEcdhEsA256kw
          sign_alg := none
          signed_message := none }) :=
  ⟨rfl, rfl, rfl⟩

/-- C1 helper: the optional sender together with its resolved sender key
id; the sender resolves to that key id, the sender holds its secret, and
the recipient's DID resolver can resolve it. -/
def FromSpec (dS : DIDResolver) (sS : SecretsResolver) (dR : DIDResolver)
    (frm : Option String) (fromKid : Option String) : Prop :=
  match frm, fromKid with
  | none, none => True
  | some f, some fk =>
      (dS.keyAgreementKids f).head? = some fk ∧
      (findSecret sS fk).isNone = false ∧
      dR.knowsKid fk = true
  | _, _ => False

/-- C1 helper: the optional signer together with its key id and the
signature algorithm its curve selects; resolvable on both sides. -/
def SignSpec (dS : DIDResolver) (sS : SecretsResolver) (dR : DIDResolver)
    (sign_by : Option String) (signInfo : Option (String × SignAlg)) : Prop :=
  match sign_by, signInfo with
  | none, none => True
  | some sb, some si =>
      si.1 = sb ∧ dS.knowsKid sb = true ∧
      (∃ K, findSecret sS sb = some K ∧ signAlgForCurve K.curve = some si.2) ∧
      dR.knowsKid sb = true
  | _, _ => False

/-- C1 (amended): unpacking a pack_encrypted result yields the message
with encrypted = true, authenticated true exactly when a sender or a
signer is present, non_repudiation true exactly when a signer is
present, anonymous_sender true exactly when the sender is absent or
protect_sender is set, and encrypted_to_kids the resolved recipient key
ids. -/
theorem unpack_pack_encrypted (m : Message) (toD : String)
    (frm sign_by fromKid : Option String)
    (signInfo : Option (String × SignAlg))
    (did_resolver_s did_resolver_r : DIDResolver)
    (secrets_resolver_s secrets_resolver_r : SecretsResolver)
    (options : PackEncryptedOptions) (uopts : UnpackOptions)
    (htyp : m.typ = plainTyp)
    (huo : uopts.unwrap_re_wrapping_forward = false)
    (hkids : did_resolver_s.keyAgreementKids toD ≠ [])
    (hrec : (did_resolver_s.keyAgreementKids toD).all
        (fun k => (findSecret secrets_resolver_r k).isNone) = false)
    (hFrom : FromSpec did_resolver_s secrets_resolver_s did_resolver_r frm
      fromKid)
    (hSign : SignSpec did_resolver_s secrets_resolver_s did_resolver_r sign_by
      signInfo) :
    ∃ w,
      m.pack_encrypted toD frm sign_by did_resolver_s secrets_resolver_s
          options = .ok w ∧
      Message.unpack w did_resolver_r secrets_resolver_r uopts =
        .ok (m,
          { encrypted := true
            authenticated := frm.isSome || sign_by.isSome
            non_repudiation := sign_by.isSome
            anonymous_sender := frm.isNone || options.protect_sender
            re_wrapped_in_forward := false
            encrypted_from_kid := fromKid
            encrypted_to_kids := some (did_resolver_s.keyAgreementKids toD)
            sign_from := signInfo.map Prod.fst
            enc_alg_auth :=
              if frm.isSome then some options.enc_alg_auth else none
            enc_alg_anon :=
              if frm.isNone || options.protect_sender then
                some options.enc_alg_anon
              else none
            sign_alg := signInfo.map Prod.snd
            signed_message :=
              signInfo.map
                (fun si => .jws (.plaintext m.toJson) si.1 si.2 true) }) := by
  cases frm with
  | none =>
      cases fromKid with
      | some fk => simp [FromSpec] at hFrom
      | none =>
          cases sign_by with
          | none =>
              cases signInfo with
              | some si => simp [SignSpec] at hSign
              | none =>
                  refine ⟨.jweAnon (.plaintext m.toJson)
                    (did_resolver_s.keyAgreementKids toD)
                    options.enc_alg_anon none, ?_, ?_⟩
                  · simp [Message.pack_encrypted, List.isEmpty_iff, hkids]
                  · simp [Message.unpack, huo, _try_unpack_anoncrypt, hrec,
                      _try_unpack_authcrypt, _try_unapck_sign,
                      Message.from_str, fromJson_toJson, Message.validate,
                      htyp, initialMetadata]
          | some sb =>
              cases signInfo with
              | none => simp [SignSpec] at hSign
              | some si =>
                  obtain ⟨kid, alg⟩ := si
                  obtain ⟨hkid, hkS, ⟨K, hK, hKalg⟩, hkR⟩ := hSign
                  cases hkid
                  refine ⟨.jweAnon (.jws (.plaintext m.toJson) kid alg true)
                    (did_resolver_s.keyAgreementKids toD)
                    options.enc_alg_anon none, ?_, ?_⟩
                  · simp [Message.pack_encrypted, Message.pack_signed, hkS,
                      hK, hKalg, List.isEmpty_iff, hkids]
                  · simp [Message.unpack, huo, _try_unpack_anoncrypt, hrec,
                      _try_unpack_authcrypt, _try_unapck_sign, hkR,
                      Message.from_str, fromJson_toJson, Message.validate,
                      htyp, initialMetadata]
  | some f =>
      cases fromKid with
      | none => simp [FromSpec] at hFrom
      | some fk =>
          obtain ⟨hhead, hfsec, hfknows⟩ := hFrom
          cases sign_by with
          | none =>
              cases signInfo with
              | some si => simp [SignSpec] at hSign
              | none =>
                  cases hp : options.protect_sender with
                  | false =>
                      refine ⟨.jweAuth (.plaintext m.toJson) fk (some fk)
                        (did_resolver_s.keyAgreementKids toD)
                        options.enc_alg_auth none, ?_, ?_⟩
                      · simp [Message.pack_encrypted, List.isEmpty_iff,
                          hkids, hhead, hfsec, hp]
                      · simp [Message.unpack, huo, _try_unpack_anoncrypt,
                          hrec, _try_unpack_authcrypt, hfknows,
                          _try_unapck_sign, Message.from_str, fromJson_toJson,
                          Message.validate, htyp, initialMetadata, hp]
                  | true =>
                      refine ⟨.jweAnon
                        (.jweAuth (.plaintext m.toJson) fk (some fk)
                          (did_resolver_s.keyAgreementKids toD)
                          options.enc_alg_auth none)
                        (did_resolver_s.keyAgreementKids toD)
                        options.enc_alg_anon none, ?_, ?_⟩
                      · simp [Message.pack_encrypted, List.isEmpty_iff,
                          hkids, hhead, hfsec, hp]
                      · simp [Message.unpack, huo, _try_unpack_anoncrypt,
                          hrec, _try_unpack_authcrypt, hfknows,
                          _try_unapck_sign, Message.from_str, fromJson_toJson,
                          Message.validate, htyp, initialMetadata, hp]
          | some sb =>
              cases signInfo with
              | none => simp [SignSpec] at hSign
              | some si =>
                  obtain ⟨kid, alg⟩ := si
                  obtain ⟨hkid, hkS, ⟨K, hK, hKalg⟩, hkR⟩ := hSign
                  cases hkid
                  cases hp : options.protect_sender with
                  | false =>
                      refine ⟨.jweAuth (.jws (.plaintext m.toJson) kid alg
                          true) fk (some fk)
                        (did_resolver_s.keyAgreementKids toD)
                        options.enc_alg_auth none, ?_, ?_⟩
                      · simp [Message.pack_encrypted, Message.pack_signed,
                          hkS, hK, hKalg, List.isEmpty_iff, hkids, hhead,
                          hfsec, hp]
                      · simp [Message.unpack, huo, _try_unpack_anoncrypt,
                          hrec, _try_unpack_authcrypt, hfknows,
                          _try_unapck_sign, hkR, Message.from_str,
                          fromJson_toJson, Message.validate, htyp,
                          initialMetadata, hp]
                  | true =>
                      refine ⟨.jweAnon
                        (.jweAuth (.jws (.plaintext m.toJson) kid alg true)
                          fk (some fk)
                          (did_resolver_s.keyAgreementKids toD)
                          options.enc_alg_auth none)
                        (did_resolver_s.keyAgreementKids toD)
                        options.enc_alg_anon none, ?_, ?_⟩
                      · simp [Message.pack_encrypted, Message.pack_signed,
                          hkS, hK, hKalg, List.isEmpty_iff, hkids, hhead,
                          hfsec, hp]
                      · simp [Message.unpack, huo, _try_unpack_anoncrypt,
                          hrec, _try_unpack_authcrypt, hfknows,
                          _try_unapck_sign, hkR, Message.from_str,
                          fromJson_toJson, Message.validate, htyp,
                          initialMetadata, hp]

theorem unpack_pack_encrypted_witness :
    ∃ w,
      exampleMessage.pack_encrypted "did:example:bob"
          (some "did:example:alice") (some aliceSignKid) exampleDIDResolver
          aliceSecrets
          { protect_sender := true
            forward := false
            enc_alg_auth := .a256cbcHs512Ecdh1puA256kw
            enc_alg_anon := .a256cbcHs512EcdhEsA256kw } = .ok w ∧
      Message.unpack w exampleDIDResolver bobSecrets UnpackOptions.default =
        .ok (exampleMessage,
          { encrypted := true
            authenticated :=
              (some "did:example:alice").isSome || (some aliceSignKid).isSome
            non_repudiation := (some aliceSignKid).isSome
            anonymous_sender := (some "did:example:alice").isNone || true
            re_wrapped_in_forward := false
            encrypted_from_kid := some aliceAgreemKid
            encrypted_to_kids :=
              some (exampleDIDResolver.keyAgreementKids "did:example:bob")
            sign_from := some aliceSignKid
            enc_alg_auth :=
              if (some "did:example:alice").isSome then
                some AuthCryptAlg.a256cbcHs512Ecdh1puA256kw
              else none
            enc_alg_anon :=
              if (some "did:example:alice").isNone || true then
                some AnonCryptAlg.a256cbcHs512EcdhEsA256kw
              else none
            sign_alg := some .edDSA
            signed_message :=
              some (.jws (.plaintext exampleMessage.toJson) aliceSignKid
                .edDSA true) }) :=
  unpack_pack_encrypted exampleMessage "did:example:bob"
    (some "did:example:alice") (some aliceSignKid) (some aliceAgreemKid)
    (some (aliceSignKid, .edDSA)) exampleDIDResolver exampleDIDResolver
    aliceSecrets bobSecrets
    { protect_sender := true
      forward := false
      enc_alg_auth := .a256cbcHs512Ecdh1puA256kw
      enc_alg_anon := .a256cbcHs512EcdhEsA256kw }
    UnpackOptions.default rfl rfl (by decide) rfl
    ⟨rfl, rfl, rfl⟩ ⟨rfl, rfl, ⟨⟨aliceSignKid, .ed25519⟩, rfl, rfl⟩, rfl⟩
